import Mathlib

/-!
Verification of `rocket-loadavg-api` (src/src/main.rs): a single-route HTTP
server exposing the OS load averages.

Shallow embedding notes:
* `f64` values only pass through the program unchanged (no floating-point
  arithmetic is performed), so they are modelled as rationals `F := ℚ`.
* The foreign C function `getloadavg(double *loadavg, int nelem)` writes up to
  `nelem` samples into the buffer and returns the number of samples written,
  or a negative value on failure.  The Rust FFI declaration at
  src/src/main.rs:21-23 drops the return type, so the caller never observes
  the status; we model the OS behaviour (`OS`) explicitly and the buffer
  effect of the call as a pure function on the buffer.
* Rocket's routing (`mount("/", routes![loadavg])`) registers exactly one
  route, `GET /loadavg`; any other request gets the framework's default
  not-found response (status 404).
-/

/-- Values of type `f64` that the program merely passes through. -/
abbrev F := ℚ

/-- The behaviour of the host OS load-average facility during one call:
`ret` is the value the C `getloadavg` returns (number of samples written,
negative on failure) and `sample i` is the `i`-th sample it would write. -/
structure OS where
  ret : Int
  sample : Nat → F

/-- How many buffer slots the C call actually writes when asked for `len`
samples: none on failure, otherwise at most `len`. -/
def writtenCount (os : OS) (len : Nat) : Nat :=
  if os.ret < 0 then 0 else min os.ret.toNat len

/-- Model of the C library function `getloadavg` as declared at
src/src/main.rs:21-23: its effect on a buffer of length `buf.length` when
called with length argument `len`.  Slots below `writtenCount` receive the
OS samples; the remaining slots keep their previous contents. -/
def getloadavg (os : OS) (buf : List F) (len : Nat) : List F :=
  (List.range buf.length).map
    (fun i => if i < writtenCount os len then os.sample i else buf[i]!)

/-- The `LoadAvg` struct of src/src/main.rs:14-19. -/
structure LoadAvg where
  last : F
  last5 : F
  last15 : F
deriving DecidableEq, Repr

/-- `LoadAvg::new` (src/src/main.rs:27-39): zero-initializes a 3-element
buffer, calls `getloadavg` with length 3 discarding its status, and builds
the struct from slots 0, 1, 2. -/
def LoadAvg.new (os : OS) : LoadAvg :=
  let load_averages : List F := getloadavg os [0, 0, 0] 3
  { last := load_averages[0]!
    last5 := load_averages[1]!
    last15 := load_averages[2]! }

/-- `LoadAvg::new` with every buffer access through `Option`-returning
indexing (`List.get?`); `none` stands for the out-of-bounds branch. -/
def LoadAvg.newChecked (os : OS) : Option LoadAvg := do
  let load_averages : List F := getloadavg os [0, 0, 0] 3
  let a ← load_averages.get? 0
  let b ← load_averages.get? 1
  let c ← load_averages.get? 2
  pure { last := a, last5 := b, last15 := c }

/-- JSON values, enough for serde's output on `LoadAvg`. -/
inductive Json where
  | num : F → Json
  | str : String → Json
  | obj : List (String × Json) → Json
deriving Repr

/-- Is this JSON value a number? -/
def Json.isNum : Json → Bool
  | .num _ => true
  | _ => false

/-- Keys of a JSON object, in order; `none` for non-objects. -/
def Json.objKeys : Json → Option (List String)
  | .obj fields => some (fields.map Prod.fst)
  | _ => none

/-- Field values of a JSON object, in order; `none` for non-objects. -/
def Json.objValues : Json → Option (List Json)
  | .obj fields => some (fields.map Prod.snd)
  | _ => none

/-- serde's `#[derive(Serialize)]` on `LoadAvg` (src/src/main.rs:14-19):
a JSON object whose fields are the struct fields, in declaration order. -/
def LoadAvg.toJson (l : LoadAvg) : Json :=
  Json.obj [("last", Json.num l.last), ("last5", Json.num l.last5),
            ("last15", Json.num l.last15)]

/-- HTTP methods. -/
inductive Method where
  | GET | POST | PUT | DELETE | PATCH | HEAD | OPTIONS
deriving DecidableEq, Repr

/-- An HTTP request, reduced to what the program inspects. -/
structure Request where
  method : Method
  path : String
deriving DecidableEq, Repr

/-- An HTTP response: status code and optional JSON body. -/
structure Response where
  status : Nat
  body : Option Json
deriving Repr

/-- The handler `loadavg()` (src/src/main.rs:42-45): builds a fresh
`LoadAvg` and serializes it as the JSON body of a 200 response. -/
def loadavg (os : OS) : Response :=
  { status := 200, body := some (LoadAvg.new os).toJson }

/-- The route table registered by `mount("/", routes![loadavg])`
(src/src/main.rs:47-51): exactly one route. -/
def routes : List (Method × String) := [(Method.GET, "/loadavg")]

/-- Rocket's dispatch over the mounted routes: the one registered route
handles `GET /loadavg`; everything else falls through to the framework's
default not-found response. -/
def dispatch (os : OS) (req : Request) : Response :=
  if req.method = Method.GET ∧ req.path = "/loadavg" then loadavg os
  else { status := 404, body := none }

/-- Server state visible across requests.  The program stores nothing
between requests; the only environment is the OS facility itself. -/
structure ServerState where
  os : OS

/-- One request handled against the server state: the response together
with the state left for subsequent requests. -/
def handleRequest (req : Request) (s : ServerState) : Response × ServerState :=
  (dispatch s.os req, s)

/-- The read operation as a state transformer, for framing claims:
returns the fresh `LoadAvg` and the state it leaves behind. -/
def readS (s : ServerState) : LoadAvg × ServerState :=
  (LoadAvg.new s.os, s)

/-- Unfolding of `LoadAvg.new`: each field is the OS sample when its slot
was written, else the zero the buffer was initialized with. -/
theorem LoadAvg.new_eq (os : OS) :
    LoadAvg.new os =
      { last := if 0 < writtenCount os 3 then os.sample 0 else 0
        last5 := if 1 < writtenCount os 3 then os.sample 1 else 0
        last15 := if 2 < writtenCount os 3 then os.sample 2 else 0 } := rfl

/-- `writtenCount` when the OS successfully reports at least three samples. -/
theorem writtenCount_of_ge (os : OS) (h : 3 ≤ os.ret) : writtenCount os 3 = 3 := by
  unfold writtenCount
  rw [if_neg (by omega)]
  omega

/-- `writtenCount` when the OS reports exactly `k` samples. -/
theorem writtenCount_of_eq (os : OS) (k : Nat) (hk : os.ret = (k : Int)) (h3 : k < 3) :
    writtenCount os 3 = k := by
  unfold writtenCount
  rw [if_neg (by omega)]
  omega

/-- Failing OS call used as a concrete execution. -/
def osFail : OS := { ret := -1, sample := fun _ => 0 }

/-- The scenario OS from the spec: three samples 0.5, 0.75, 1.2. -/
def osScenario : OS :=
  { ret := 3
    sample := fun i => if i = 0 then 1/2 else if i = 1 then 3/4 else 6/5 }

/-- OS reporting a single sample 7 (partial data). -/
def osPartial : OS := { ret := 1, sample := fun _ => 7 }

/-- OS reporting a negative first sample. -/
def osNeg : OS := { ret := 3, sample := fun _ => -1 }

/-- OS reporting constant sample 1. -/
def osOne : OS := { ret := 3, sample := fun _ => 1 }

/-- C1: every `GET /loadavg` request invokes `LoadAvg::new` and yields
status 200 with a JSON object body with exactly the keys `last`, `last5`,
`last15`, each mapped to a number. -/
theorem C1_handler_shape (os : OS) :
    (dispatch os ⟨Method.GET, "/loadavg"⟩).status = 200 ∧
    (dispatch os ⟨Method.GET, "/loadavg"⟩).body = some (LoadAvg.new os).toJson ∧
    (LoadAvg.new os).toJson.objKeys = some ["last", "last5", "last15"] ∧
    ∀ v ∈ ((LoadAvg.new os).toJson.objValues).getD [], v.isNum = true := by
  refine ⟨rfl, rfl, rfl, ?_⟩
  intro v hv
  simp [LoadAvg.toJson, Json.objValues] at hv
  rcases hv with h | h | h <;> simp [h, Json.isNum]

/-- C2: when the OS reports three samples, they land unchanged in `last`,
`last5`, `last15` respectively, and the body serializes them in order. -/
theorem C2_passthrough (os : OS) (h : 3 ≤ os.ret) :
    LoadAvg.new os = ⟨os.sample 0, os.sample 1, os.sample 2⟩ ∧
    (dispatch os ⟨Method.GET, "/loadavg"⟩).body =
      some (Json.obj [("last", Json.num (os.sample 0)),
                      ("last5", Json.num (os.sample 1)),
                      ("last15", Json.num (os.sample 2))]) := by
  have hnew : LoadAvg.new os = ⟨os.sample 0, os.sample 1, os.sample 2⟩ := by
    rw [LoadAvg.new_eq, writtenCount_of_ge os h]
    simp
  refine ⟨hnew, ?_⟩
  show some (LoadAvg.new os).toJson = _
  rw [hnew]
  rfl

/-- Witness for C2 at the spec scenario [0.5, 0.75, 1.2]. -/
theorem C2_passthrough_witness :
    (3 : Int) ≤ osScenario.ret ∧
    (dispatch osScenario ⟨Method.GET, "/loadavg"⟩).body =
      some (Json.obj [("last", Json.num (1/2)),
                      ("last5", Json.num (3/4)),
                      ("last15", Json.num (6/5))]) :=
  ⟨by decide, (C2_passthrough osScenario (by decide)).2⟩

/-- C3 counterexample: on an execution where the OS call fails
(`getloadavg` returns -1), the handler still answers 200, not a 5xx. -/
theorem C3_counterexample :
    osFail.ret < 0 ∧
    (dispatch osFail ⟨Method.GET, "/loadavg"⟩).status = 200 ∧
    ¬ (500 ≤ (dispatch osFail ⟨Method.GET, "/loadavg"⟩).status ∧
       (dispatch osFail ⟨Method.GET, "/loadavg"⟩).status < 600) := by
  refine ⟨by decide, rfl, ?_⟩
  intro h
  have : (dispatch osFail ⟨Method.GET, "/loadavg"⟩).status = 200 := rfl
  omega

/-- C3 amended: when the underlying OS call fails, no error is surfaced at
all — the handler still returns status 200, with all three fields equal to
the zero-initialized buffer contents. -/
theorem C3_amended_masked_failure (os : OS) (h : os.ret < 0) :
    (dispatch os ⟨Method.GET, "/loadavg"⟩).status = 200 ∧
    LoadAvg.new os = ⟨0, 0, 0⟩ := by
  refine ⟨rfl, ?_⟩
  rw [LoadAvg.new_eq]
  have hw : writtenCount os 3 = 0 := by
    unfold writtenCount
    rw [if_pos h]
  simp [hw]

/-- Witness for the amended C3 at the failing execution. -/
theorem C3_amended_witness :
    osFail.ret < 0 ∧
    ((dispatch osFail ⟨Method.GET, "/loadavg"⟩).status = 200 ∧
     LoadAvg.new osFail = ⟨0, 0, 0⟩) :=
  ⟨by decide, C3_amended_masked_failure osFail (by decide)⟩

/-- C4: when the OS writes only `k < 3` samples, the fields for the
unwritten slots are exactly 0, and the request still succeeds with 200. -/
theorem C4_zero_fill (os : OS) (k : Nat) (hk : os.ret = (k : Int)) (h3 : k < 3) :
    (k ≤ 0 → (LoadAvg.new os).last = 0) ∧
    (k ≤ 1 → (LoadAvg.new os).last5 = 0) ∧
    (k ≤ 2 → (LoadAvg.new os).last15 = 0) ∧
    (dispatch os ⟨Method.GET, "/loadavg"⟩).status = 200 := by
  have hw : writtenCount os 3 = k := writtenCount_of_eq os k hk h3
  rw [LoadAvg.new_eq]
  refine ⟨fun h0 => ?_, fun h1 => ?_, fun h2 => ?_, rfl⟩
  · simp [hw]; omega
  · simp [hw]; omega
  · simp [hw]; omega

/-- Witness for C4: the OS writes one sample (value 7); `last5` and
`last15` come out 0 and the response is a 200. -/
theorem C4_zero_fill_witness :
    osPartial.ret = ((1 : Nat) : Int) ∧ (1 : Nat) < 3 ∧
    (LoadAvg.new osPartial).last5 = 0 ∧ (LoadAvg.new osPartial).last15 = 0 ∧
    (dispatch osPartial ⟨Method.GET, "/loadavg"⟩).status = 200 :=
  ⟨by decide, by decide,
   (C4_zero_fill osPartial 1 (by decide) (by decide)).2.1 (by decide),
   (C4_zero_fill osPartial 1 (by decide) (by decide)).2.2.1 (by decide),
   (C4_zero_fill osPartial 1 (by decide) (by decide)).2.2.2⟩

/-- C5 counterexample: with no constraint on what the OS writes, a
constructed `LoadAvg` can carry a negative field — the OS samples are
passed through unchecked. -/
theorem C5_counterexample : (LoadAvg.new osNeg).last < 0 := by decide

/-- C5 amended: the fields of a constructed `LoadAvg` are non-negative
provided every sample the OS writes is non-negative (the zero-filled
slots are trivially non-negative, and in this model every value is a
finite rational). -/
theorem C5_amended_nonneg (os : OS) (h : ∀ i, 0 ≤ os.sample i) :
    0 ≤ (LoadAvg.new os).last ∧ 0 ≤ (LoadAvg.new os).last5 ∧
    0 ≤ (LoadAvg.new os).last15 := by
  rw [LoadAvg.new_eq]
  refine ⟨?_, ?_, ?_⟩ <;>
    · simp only []
      split
      · exact h _
      · exact le_refl 0

/-- Witness for the amended C5 at an OS writing constant sample 1. -/
theorem C5_amended_witness :
    0 ≤ (LoadAvg.new osOne).last ∧ 0 ≤ (LoadAvg.new osOne).last5 ∧
    0 ≤ (LoadAvg.new osOne).last15 :=
  C5_amended_nonneg osOne (fun _ => zero_le_one)

/-- C6: `LoadAvg::new` is total and surfaces no error: its result type has
no error variant, and on a failing OS call it returns the struct populated
from the zero-initialized buffer. -/
theorem C6_no_error_surfaced (os : OS) :
    (∃ l : LoadAvg, LoadAvg.new os = l) ∧
    (os.ret < 0 → LoadAvg.new os = { last := 0, last5 := 0, last15 := 0 }) := by
  refine ⟨⟨LoadAvg.new os, rfl⟩, fun h => ?_⟩
  rw [LoadAvg.new_eq]
  have hw : writtenCount os 3 = 0 := by
    unfold writtenCount
    rw [if_pos h]
  simp [hw]

/-- Witness for C6 at the failing execution. -/
theorem C6_witness :
    LoadAvg.new osFail = { last := 0, last5 := 0, last15 := 0 } :=
  (C6_no_error_surfaced osFail).2 (by decide)

/-- C7: exactly one route is registered, and any request that is not
`GET /loadavg` receives the framework default 404, a non-200 status. -/
theorem C7_route_isolation (os : OS) (req : Request)
    (h : req.path ≠ "/loadavg" ∨ req.method ≠ Method.GET) :
    routes.length = 1 ∧
    (dispatch os req).status = 404 ∧ (dispatch os req).status ≠ 200 := by
  have hcond : ¬ (req.method = Method.GET ∧ req.path = "/loadavg") := by
    rcases h with h | h
    · exact fun hc => h hc.2
    · exact fun hc => h hc.1
  unfold dispatch
  rw [if_neg hcond]
  exact ⟨rfl, rfl, by decide⟩

/-- Witness for C7: a POST to `/loadavg` gets a 404. -/
theorem C7_route_isolation_witness :
    ((Request.mk Method.POST "/loadavg").path ≠ "/loadavg" ∨
     (Request.mk Method.POST "/loadavg").method ≠ Method.GET) ∧
    (dispatch osOne (Request.mk Method.POST "/loadavg")).status = 404 :=
  ⟨Or.inr (by decide),
   (C7_route_isolation osOne (Request.mk Method.POST "/loadavg")
     (Or.inr (by decide))).2.1⟩

/-- C8: the read is pure and idempotent: two successive invocations under
the same OS-reported values yield equal `LoadAvg` values and leave the
state untouched, so no ordering dependency exists between calls. -/
theorem C8_read_idempotent (s : ServerState) :
    (readS s).1 = (readS (readS s).2).1 ∧
    (readS (readS s).2).2 = s ∧
    (readS s).2 = s :=
  ⟨rfl, rfl, rfl⟩

/-- C9: no state survives a request: handling any request returns the
state unchanged, a later request sees the identical state, and the
`GET /loadavg` body is built from a `LoadAvg` constructed fresh from the
OS facility of the current state. -/
theorem C9_stateless (s : ServerState) (req req2 : Request) :
    (handleRequest req s).2 = s ∧
    handleRequest req2 ((handleRequest req s).2) = handleRequest req2 s ∧
    (handleRequest ⟨Method.GET, "/loadavg"⟩ s).1.body =
      some (LoadAvg.new s.os).toJson :=
  ⟨rfl, rfl, rfl⟩

/-- C10: the buffer passed to `getloadavg` has length 3, the length
argument is 3, and the reads at indices 0, 1, 2 are all in bounds: the
`Option`-indexed version never hits the out-of-bounds branch and agrees
with `LoadAvg.new`. -/
theorem C10_buffer_in_bounds (os : OS) :
    ([0, 0, 0] : List F).length = 3 ∧
    (getloadavg os [0, 0, 0] 3).length = 3 ∧
    LoadAvg.newChecked os = some (LoadAvg.new os) :=
  ⟨rfl, rfl, rfl⟩
